import Mathlib

/-!
# Verification of the finnhub-mcp-server operation set

Shallow embedding of the repository's two front ends:

* `src/app.py` — the interactive (Gradio) server.  Its five operations
  (`get_press_releases`, `get_insider_transactions`, `get_basic_financials`,
  `get_company_profile`, `get_earnings_surprises`) each check the API key,
  normalize the symbol, resolve default date windows, issue one HTTP GET
  with `timeout=10`, reshape the JSON response, and wrap the whole pipeline
  in `try/except`, serializing the answer with `json.dumps`.

* `src/src/finnhub_mcp_server/__init__.py` — the MCP (tool-invocation)
  server.  Module initialization raises when `FINNHUB_API_KEY` is absent;
  its five async operations uppercase the symbol (without trimming), issue
  the GET without a timeout, and have no `try/except` — exceptions
  propagate to the dispatcher.

Conventions of the embedding:

* JSON values are the inductive `Json` (numbers as `Int`; no claim in
  scope depends on float values).
* Python exceptions are `Except String` with the exception's message text;
  `try/except Exception` around a block is `pyTry`.
* The outbound HTTP layer is a `provider : Request → HttpResult` oracle
  argument; each operation returns, besides its answer, the list of
  requests it issued, so that "no network request" and "timeout on every
  request" are statable.
* `datetime.now()` is a `today : Nat` argument (a day number);
  `timedelta(days=n)` is subtraction on day numbers; `strftime("%Y-%m-%d")`
  is `fmtDate`, an injective rendering of the day number (the calendar
  spelling is abstracted; every claim in scope depends only on day
  arithmetic and on distinct days rendering distinctly).
-/

/-- JSON values as parsed by `response.json()`.  Object fields keep
provider order, as Python dicts do. -/
inductive Json where
  | null
  | bool (b : Bool)
  | num (n : Int)
  | str (s : String)
  | arr (xs : List Json)
  | obj (kvs : List (String × Json))

namespace Json

/-- Python truthiness of a JSON value: `None`, `False`, `0`, `""`, `[]`
and `\x7b\x7d` are falsy, everything else truthy. -/
def truthy : Json → Bool
  | .null => false
  | .bool b => b
  | .num n => n != 0
  | .str s => s ≠ ""
  | .arr xs => !xs.isEmpty
  | .obj kvs => !kvs.isEmpty

/-- Whether the value is a JSON object (a Python dict). -/
def isObj : Json → Bool
  | .obj _ => true
  | _ => false

/-- First binding of a key in an object's field list (Python dicts hold
each key once; on the shapes in scope first = only). -/
def lookupKey (kvs : List (String × Json)) (k : String) : Option Json :=
  match kvs with
  | [] => none
  | (l, v) :: rest => if l = k then some v else lookupKey rest k

end Json

/-- Python truthiness of `d.get(k)`'s result: `None` (missing key) is
falsy. -/
def optTruthy : Option Json → Bool
  | none => false
  | some j => j.truthy

/-- `data.get(k)`: `None` when the key is missing; raises
(`AttributeError`) when the receiver is not a dict. -/
def pyGet (j : Json) (k : String) : Except String (Option Json) :=
  match j with
  | .obj kvs => .ok (Json.lookupKey kvs k)
  | _ => .error "AttributeError: object has no attribute get"

/-- `r.get(k, d)`: the stored value when the key is present (even if
`None`), the default otherwise; raises when the receiver is not a dict. -/
def pyGetD (j : Json) (k : String) (d : Json) : Except String Json :=
  match j with
  | .obj kvs => .ok ((Json.lookupKey kvs k).getD d)
  | _ => .error "AttributeError: object has no attribute get"

/-- `data[k][:n]` iterated as records: the first `n` elements when
`data[k]` is an array.  In Python any truthy non-list value of `data[k]`
also ends in an exception on this path (slicing a dict or a number raises
`TypeError`; slicing a string yields characters on which the subsequent
`.get` raises `AttributeError`), which this models as a single raise. -/
def pySliceList (j : Json) (n : Nat) : Except String (List Json) :=
  match j with
  | .arr xs => .ok (xs.take n)
  | _ => .error "TypeError: value is not sliceable as a record list"

/-- `try: ... except Exception as e: return \x7b"error": str(e)\x7d` —
the interactive server's uniform catch: an error becomes an answer object
holding only an `error` field with the message text. -/
def pyTry (body : Except String Json) : Json :=
  match body with
  | .ok j => j
  | .error msg => Json.obj [("error", Json.str msg)]

/-- One outbound HTTP GET as the operations build it: URL, the effective
query parameters (the session's `token` merged with the per-call
parameters), and the per-call timeout when one is set. -/
structure Request where
  url : String
  params : List (String × String)
  timeout : Option Nat
deriving DecidableEq

/-- What the provider/network returns for one GET: an HTTP response with
a status code and a body (`none` models a JSON-decode failure), or a
transport failure (timeout, connection error) with its message. -/
inductive HttpResult where
  | success (status : Nat) (body : Option Json)
  | netError (msg : String)

/-- `response.raise_for_status()` followed by `response.json()`:
a transport error raises its message; a 4xx/5xx status raises; a
non-JSON body raises; otherwise the parsed value is returned. -/
def raiseForStatusAndJson : HttpResult → Except String Json
  | .netError msg => .error msg
  | .success status body =>
      if 400 ≤ status then
        .error ("HTTPError: " ++ toString status)
      else
        match body with
        | none => .error "JSONDecodeError: Expecting value"
        | some j => .ok j

/-- `FINNHUB_BASE_URL` from both source files. -/
def FINNHUB_BASE_URL : String := "https://finnhub.io/api/v1"

/-- `datetime.strftime("%Y-%m-%d")` on a day number: an injective
rendering of the day.  The calendar spelling (`YYYY-MM-DD`) is abstracted;
the claims in scope depend only on day arithmetic and injectivity. -/
def fmtDate (d : Nat) : String := "day-" ++ toString d

/-- The shared date-window defaulting of `app.py` (both date-taking
operations): an empty `to_date` becomes today, an empty `from_date`
becomes today minus the operation's window (`days` = 30 or 90). -/
def resolveRange (from_date to_date : String) (today : Nat) (days : Nat) :
    String × String :=
  let td := if to_date = "" then fmtDate today else to_date
  let fd := if from_date = "" then fmtDate (today - days) else from_date
  (fd, td)

-- `json.dumps`: a deterministic serialization of the answer object.
-- (The exact whitespace of `indent=2` is abstracted; every claim in scope
-- depends only on the serializer being a function of the JSON value.)
mutual

def Json.dumps : Json → String
  | .null => "null"
  | .bool true => "true"
  | .bool false => "false"
  | .num n => toString n
  | .str s => "\"" ++ s ++ "\""
  | .arr xs => "[" ++ dumpsList xs ++ "]"
  | .obj kvs => "\x7b" ++ dumpsKvs kvs ++ "\x7d"

def dumpsList : List Json → String
  | [] => ""
  | [x] => Json.dumps x
  | x :: xs => Json.dumps x ++ ", " ++ dumpsList xs

def dumpsKvs : List (String × Json) → String
  | [] => ""
  | [(k, v)] => "\"" ++ k ++ "\": " ++ Json.dumps v
  | (k, v) :: kvs => "\"" ++ k ++ "\": " ++ Json.dumps v ++ ", " ++ dumpsKvs kvs

end

/-- Python `str.lower()` (ASCII case mapping, character-wise; every key
in scope is ASCII). -/
def pyLower (s : String) : String := String.mk (s.data.map Char.toLower)

/-- Python `str.upper()` (ASCII case mapping, character-wise; every
symbol in scope is ASCII). -/
def pyUpper (s : String) : String := String.mk (s.data.map Char.toUpper)

/-- Python `str.strip()`: leading and trailing whitespace removed. -/
def pyStrip (s : String) : String :=
  String.mk (((s.data.dropWhile Char.isWhitespace).reverse.dropWhile
    Char.isWhitespace).reverse)

/-- `symbol.upper().strip()` — the interactive server's symbol
normalization. -/
def appNormSymbol (symbol : String) : String := pyStrip (pyUpper symbol)

/-- The not-configured answer every `app.py` operation returns when
`API_KEY` is empty. -/
def notConfigured : Json :=
  Json.obj [("error", Json.str "FINNHUB_API_KEY not configured")]

/-- The answer every `app.py` operation returns when the normalized
symbol is empty. -/
def symbolRequired : Json :=
  Json.obj [("error", Json.str "Symbol is required")]

/-- Projection of one press release (`app.py` lines 61–66 and
`__init__.py` lines 196–201): `release.get(key, "")` for the four kept
fields; raises when the record is not a dict. -/
def projectRelease (r : Json) : Except String Json := do
  let d ← pyGetD r "datetime" (Json.str "")
  let h ← pyGetD r "headline" (Json.str "")
  let s ← pyGetD r "summary" (Json.str "")
  let u ← pyGetD r "url" (Json.str "")
  pure (Json.obj [("date", d), ("headline", h), ("summary", s), ("url", u)])

/-- Projection of one insider transaction (`app.py` lines 115–123 and
`__init__.py` lines 237–245). -/
def projectTransaction (t : Json) : Except String Json := do
  let d ← pyGetD t "transactionDate" (Json.str "")
  let n ← pyGetD t "name" (Json.str "")
  let s ← pyGetD t "share" (Json.num 0)
  let c ← pyGetD t "change" (Json.num 0)
  let f ← pyGetD t "filingDate" (Json.str "")
  let tc ← pyGetD t "transactionCode" (Json.str "")
  let tp ← pyGetD t "transactionPrice" (Json.num 0)
  pure (Json.obj [("date", d), ("name", n), ("share", s), ("change", c),
    ("filingDate", f), ("transactionCode", tc), ("transactionPrice", tp)])

/-- `term in k.lower()` for one candidate term: substring test on the
lowercased key. -/
def strContains (hay needle : String) : Bool :=
  (List.range (hay.data.length + 1)).any fun i => needle.data.isPrefixOf (hay.data.drop i)

/-- `any(term in k.lower() for term in terms)`. -/
def keyMatches (terms : List String) (k : String) : Bool :=
  terms.any fun t => strContains (pyLower k) t

/-- The category filter of `get_basic_financials` (`app.py` lines
165–172, identical in `__init__.py` lines 277–284): `price`, `valuation`
and `margin` keep the keys matching their term lists; any other category
(including `all`) keeps every key. -/
def filterMetrics (metric_type : String) (kvs : List (String × Json)) :
    List (String × Json) :=
  if metric_type = "price" then
    kvs.filter fun kv => keyMatches ["price", "52week", "beta"] kv.1
  else if metric_type = "valuation" then
    kvs.filter fun kv => keyMatches ["pe", "pb", "ps", "ev", "ratio"] kv.1
  else if metric_type = "margin" then
    kvs.filter fun kv => keyMatches ["margin", "roe", "roa", "roic"] kv.1
  else
    kvs

/-- The `try:` block of `app.py`'s `get_press_releases` (lines 47–74),
given the resolved symbol/dates and the provider's result for the one
GET. -/
def pressBody (sym fd td : String) (resp : HttpResult) : Except String Json := do
  let data ← raiseForStatusAndJson resp
  let md ← pyGet data "majorDevelopment"
  if !optTruthy md then
    pure (Json.obj [("symbol", Json.str sym),
      ("message", Json.str ("No press releases found for " ++ sym ++
        " between " ++ fd ++ " and " ++ td))])
  else do
    let items ← pySliceList (md.getD Json.null) 10
    let releases ← items.mapM projectRelease
    pure (Json.obj [("symbol", Json.str sym),
      ("date_range", Json.str (fd ++ " to " ++ td)),
      ("press_releases", Json.arr releases)])

/-- `app.py` `get_press_releases` before serialization: the answer object
and the list of requests issued. -/
def app_press_core (apiKey symbol from_date to_date : String) (today : Nat)
    (provider : Request → HttpResult) : Json × List Request :=
  if apiKey = "" then (notConfigured, [])
  else
    let sym := appNormSymbol symbol
    if sym = "" then (symbolRequired, [])
    else
      let r := resolveRange from_date to_date today 30
      let req : Request :=
        { url := FINNHUB_BASE_URL ++ "/press-releases",
          params := [("token", apiKey), ("symbol", sym), ("from", r.1), ("to", r.2)],
          timeout := some 10 }
      (pyTry (pressBody sym r.1 r.2 (provider req)), [req])

/-- `app.py` `get_press_releases`: serialized answer text plus the
requests issued. -/
def app_get_press_releases (apiKey symbol from_date to_date : String)
    (today : Nat) (provider : Request → HttpResult) : String × List Request :=
  let c := app_press_core apiKey symbol from_date to_date today provider
  (c.1.dumps, c.2)

/-- The `try:` block of `app.py`'s `get_insider_transactions` (lines
101–131). -/
def insiderBody (sym fd td : String) (resp : HttpResult) : Except String Json := do
  let data ← raiseForStatusAndJson resp
  let d ← pyGet data "data"
  if !optTruthy d then
    pure (Json.obj [("symbol", Json.str sym),
      ("message", Json.str ("No insider transactions found for " ++ sym ++
        " between " ++ fd ++ " and " ++ td))])
  else do
    let items ← pySliceList (d.getD Json.null) 20
    let transactions ← items.mapM projectTransaction
    pure (Json.obj [("symbol", Json.str sym),
      ("date_range", Json.str (fd ++ " to " ++ td)),
      ("insider_transactions", Json.arr transactions)])

/-- `app.py` `get_insider_transactions` before serialization. -/
def app_insider_core (apiKey symbol from_date to_date : String) (today : Nat)
    (provider : Request → HttpResult) : Json × List Request :=
  if apiKey = "" then (notConfigured, [])
  else
    let sym := appNormSymbol symbol
    if sym = "" then (symbolRequired, [])
    else
      let r := resolveRange from_date to_date today 90
      let req : Request :=
        { url := FINNHUB_BASE_URL ++ "/stock/insider-transactions",
          params := [("token", apiKey), ("symbol", sym), ("from", r.1), ("to", r.2)],
          timeout := some 10 }
      (pyTry (insiderBody sym r.1 r.2 (provider req)), [req])

/-- `app.py` `get_insider_transactions`. -/
def app_get_insider_transactions (apiKey symbol from_date to_date : String)
    (today : Nat) (provider : Request → HttpResult) : String × List Request :=
  let c := app_insider_core apiKey symbol from_date to_date today provider
  (c.1.dumps, c.2)

/-- `metrics.items()` — iterating the metric value as a dict; raises when
it is not a dict.  (`data["metric"]` itself cannot fail here: the body
runs it only after `data.get("metric")` was truthy.) -/
def pyItems (j : Json) : Except String (List (String × Json)) :=
  match j with
  | .obj kvs => .ok kvs
  | _ => .error "AttributeError: object has no attribute items"

/-- The `try:` block of `app.py`'s `get_basic_financials` (lines
151–181): empty-metric sentinel, category filter, then the answer with
`metrics` and `series`. -/
def financialsBody (sym metric_type : String) (resp : HttpResult) :
    Except String Json := do
  let data ← raiseForStatusAndJson resp
  let m ← pyGet data "metric"
  if !optTruthy m then
    pure (Json.obj [("symbol", Json.str sym),
      ("message", Json.str ("No financial metrics found for " ++ sym))])
  else do
    let metrics ← pyItems (m.getD Json.null)
    let series ← pyGetD data "series" (Json.obj [])
    pure (Json.obj [("symbol", Json.str sym),
      ("metric_type", Json.str metric_type),
      ("metrics", Json.obj (filterMetrics metric_type metrics)),
      ("series", series)])

/-- `app.py` `get_basic_financials` before serialization.  The GET always
asks the provider for `metric=all`; filtering happens locally. -/
def app_financials_core (apiKey symbol metric_type : String)
    (provider : Request → HttpResult) : Json × List Request :=
  if apiKey = "" then (notConfigured, [])
  else
    let sym := appNormSymbol symbol
    if sym = "" then (symbolRequired, [])
    else
      let req : Request :=
        { url := FINNHUB_BASE_URL ++ "/stock/metric",
          params := [("token", apiKey), ("symbol", sym), ("metric", "all")],
          timeout := some 10 }
      (pyTry (financialsBody sym metric_type (provider req)), [req])

/-- `app.py` `get_basic_financials`. -/
def app_get_basic_financials (apiKey symbol metric_type : String)
    (provider : Request → HttpResult) : String × List Request :=
  let c := app_financials_core apiKey symbol metric_type provider
  (c.1.dumps, c.2)

/-- The `try:` block of `app.py`'s `get_company_profile` (lines 198–209):
a falsy payload becomes the no-profile message, otherwise the payload is
returned verbatim. -/
def profileBody (sym : String) (resp : HttpResult) : Except String Json := do
  let data ← raiseForStatusAndJson resp
  if !data.truthy then
    pure (Json.obj [("symbol", Json.str sym),
      ("message", Json.str ("No company profile found for " ++ sym))])
  else
    pure data

/-- `app.py` `get_company_profile` before serialization. -/
def app_profile_core (apiKey symbol : String)
    (provider : Request → HttpResult) : Json × List Request :=
  if apiKey = "" then (notConfigured, [])
  else
    let sym := appNormSymbol symbol
    if sym = "" then (symbolRequired, [])
    else
      let req : Request :=
        { url := FINNHUB_BASE_URL ++ "/stock/profile2",
          params := [("token", apiKey), ("symbol", sym)],
          timeout := some 10 }
      (pyTry (profileBody sym (provider req)), [req])

/-- `app.py` `get_company_profile`. -/
def app_get_company_profile (apiKey symbol : String)
    (provider : Request → HttpResult) : String × List Request :=
  let c := app_profile_core apiKey symbol provider
  (c.1.dumps, c.2)

/-- The `try:` block of `app.py`'s `get_earnings_surprises` (lines
229–245): a falsy payload becomes the no-earnings message, otherwise the
payload is wrapped with the symbol. -/
def earningsBody (sym : String) (resp : HttpResult) : Except String Json := do
  let data ← raiseForStatusAndJson resp
  if !data.truthy then
    pure (Json.obj [("symbol", Json.str sym),
      ("message", Json.str ("No earnings data found for " ++ sym))])
  else
    pure (Json.obj [("symbol", Json.str sym), ("earnings_surprises", data)])

/-- `app.py` `get_earnings_surprises` before serialization. -/
def app_earnings_core (apiKey symbol : String) (limit : Int)
    (provider : Request → HttpResult) : Json × List Request :=
  if apiKey = "" then (notConfigured, [])
  else
    let sym := appNormSymbol symbol
    if sym = "" then (symbolRequired, [])
    else
      let req : Request :=
        { url := FINNHUB_BASE_URL ++ "/stock/earnings",
          params := [("token", apiKey), ("symbol", sym), ("limit", toString limit)],
          timeout := some 10 }
      (pyTry (earningsBody sym (provider req)), [req])

/-- `app.py` `get_earnings_surprises`. -/
def app_get_earnings_surprises (apiKey symbol : String) (limit : Int)
    (provider : Request → HttpResult) : String × List Request :=
  let c := app_earnings_core apiKey symbol limit provider
  (c.1.dumps, c.2)

/-- `__init__.py` lines 34–37: `os.getenv` yields `none` when the
variable is absent; `if not API_KEY: raise ValueError(...)` makes absence
(or an empty value) fatal at module initialization, before the server
starts. -/
def mcpStartup (env : Option String) : Except String String :=
  match env with
  | none => .error "FINNHUB_API_KEY environment variable is required"
  | some k =>
      if k = "" then .error "FINNHUB_API_KEY environment variable is required"
      else .ok k

/-- Text content of the MCP `get_press_releases` (`__init__.py` lines
186–209): no `try/except`, so a failure is an escaping exception
(`Except.error`); an empty list yields a plain-text message; otherwise
the serialized answer object. -/
def mcpPressText (sym fd td : String) (resp : HttpResult) : Except String String := do
  let data ← raiseForStatusAndJson resp
  let md ← pyGet data "majorDevelopment"
  if !optTruthy md then
    pure ("No press releases found for " ++ sym ++ " between " ++ fd ++ " and " ++ td)
  else do
    let items ← pySliceList (md.getD Json.null) 10
    let releases ← items.mapM projectRelease
    pure (Json.dumps (Json.obj [("symbol", Json.str sym),
      ("date_range", Json.str (fd ++ " to " ++ td)),
      ("press_releases", Json.arr releases)]))

/-- MCP `get_press_releases` (`__init__.py` lines 171–209): the symbol is
only uppercased (`args["symbol"].upper()`, no `strip`), missing dates
default via `args.get`, the GET carries no timeout, and the body is not
wrapped in `try/except`. -/
def mcp_get_press_releases (apiKey symbol : String)
    (from_date to_date : Option String) (today : Nat)
    (provider : Request → HttpResult) : (Except String String) × List Request :=
  let sym := pyUpper symbol
  let td := to_date.getD (fmtDate today)
  let fd := from_date.getD (fmtDate (today - 30))
  let req : Request :=
    { url := FINNHUB_BASE_URL ++ "/press-releases",
      params := [("token", apiKey), ("symbol", sym), ("from", fd), ("to", td)],
      timeout := none }
  (mcpPressText sym fd td (provider req), [req])

/-- Text content of the MCP `get_insider_transactions` (`__init__.py`
lines 227–253). -/
def mcpInsiderText (sym fd td : String) (resp : HttpResult) : Except String String := do
  let data ← raiseForStatusAndJson resp
  let d ← pyGet data "data"
  if !optTruthy d then
    pure ("No insider transactions found for " ++ sym ++ " between " ++ fd ++ " and " ++ td)
  else do
    let items ← pySliceList (d.getD Json.null) 20
    let transactions ← items.mapM projectTransaction
    pure (Json.dumps (Json.obj [("symbol", Json.str sym),
      ("date_range", Json.str (fd ++ " to " ++ td)),
      ("insider_transactions", Json.arr transactions)]))

/-- MCP `get_insider_transactions` (`__init__.py` lines 212–253). -/
def mcp_get_insider_transactions (apiKey symbol : String)
    (from_date to_date : Option String) (today : Nat)
    (provider : Request → HttpResult) : (Except String String) × List Request :=
  let sym := pyUpper symbol
  let td := to_date.getD (fmtDate today)
  let fd := from_date.getD (fmtDate (today - 90))
  let req : Request :=
    { url := FINNHUB_BASE_URL ++ "/stock/insider-transactions",
      params := [("token", apiKey), ("symbol", sym), ("from", fd), ("to", td)],
      timeout := none }
  (mcpInsiderText sym fd td (provider req), [req])

/-- Text content of the MCP `get_basic_financials` (`__init__.py` lines
267–293); the category filter is the same `filterMetrics`. -/
def mcpFinancialsText (sym metric_type : String) (resp : HttpResult) :
    Except String String := do
  let data ← raiseForStatusAndJson resp
  let m ← pyGet data "metric"
  if !optTruthy m then
    pure ("No financial metrics found for " ++ sym)
  else do
    let metrics ← pyItems (m.getD Json.null)
    let series ← pyGetD data "series" (Json.obj [])
    pure (Json.dumps (Json.obj [("symbol", Json.str sym),
      ("metric_type", Json.str metric_type),
      ("metrics", Json.obj (filterMetrics metric_type metrics)),
      ("series", series)]))

/-- MCP `get_basic_financials` (`__init__.py` lines 256–293); the
category comes from `args.get("metric", "all")`. -/
def mcp_get_basic_financials (apiKey symbol : String)
    (metric : Option String) (provider : Request → HttpResult) :
    (Except String String) × List Request :=
  let sym := pyUpper symbol
  let metric_type := metric.getD "all"
  let req : Request :=
    { url := FINNHUB_BASE_URL ++ "/stock/metric",
      params := [("token", apiKey), ("symbol", sym), ("metric", "all")],
      timeout := none }
  (mcpFinancialsText sym metric_type (provider req), [req])

/-- Text content of the MCP `get_company_profile` (`__init__.py` lines
303–310). -/
def mcpProfileText (sym : String) (resp : HttpResult) : Except String String := do
  let data ← raiseForStatusAndJson resp
  if !data.truthy then
    pure ("No company profile found for " ++ sym)
  else
    pure data.dumps

/-- MCP `get_company_profile` (`__init__.py` lines 296–310). -/
def mcp_get_company_profile (apiKey symbol : String)
    (provider : Request → HttpResult) : (Except String String) × List Request :=
  let sym := pyUpper symbol
  let req : Request :=
    { url := FINNHUB_BASE_URL ++ "/stock/profile2",
      params := [("token", apiKey), ("symbol", sym)],
      timeout := none }
  (mcpProfileText sym (provider req), [req])

/-- Text content of the MCP `get_earnings_surprises` (`__init__.py`
lines 324–336). -/
def mcpEarningsText (sym : String) (resp : HttpResult) : Except String String := do
  let data ← raiseForStatusAndJson resp
  if !data.truthy then
    pure ("No earnings data found for " ++ sym)
  else
    pure (Json.dumps (Json.obj [("symbol", Json.str sym),
      ("earnings_surprises", data)]))

/-- MCP `get_earnings_surprises` (`__init__.py` lines 313–336); the
limit comes from `args.get("limit", 4)`. -/
def mcp_get_earnings_surprises (apiKey symbol : String) (limit : Option Int)
    (provider : Request → HttpResult) : (Except String String) × List Request :=
  let sym := pyUpper symbol
  let req : Request :=
    { url := FINNHUB_BASE_URL ++ "/stock/earnings",
      params := [("token", apiKey), ("symbol", sym), ("limit", toString (limit.getD 4))],
      timeout := none }
  (mcpEarningsText sym (provider req), [req])

/-- `app.py` lines 17 and 255–256: `API_KEY = os.getenv("FINNHUB_API_KEY", "")`
never raises; the UI renders a warning banner exactly when the key is
empty (degraded mode).  First component: the resolved key; second:
whether the warning is shown. -/
def appStartup (env : Option String) : String × Bool :=
  let key := env.getD ""
  (key, key = "")

/-- The press-release record projection on an object's fields — the
value `projectRelease` returns on a dict. -/
def releaseFields (kvs : List (String × Json)) : Json :=
  Json.obj [("date", (Json.lookupKey kvs "datetime").getD (Json.str "")),
    ("headline", (Json.lookupKey kvs "headline").getD (Json.str "")),
    ("summary", (Json.lookupKey kvs "summary").getD (Json.str "")),
    ("url", (Json.lookupKey kvs "url").getD (Json.str ""))]

/-- The insider-transaction record projection on an object's fields. -/
def transactionFields (kvs : List (String × Json)) : Json :=
  Json.obj [("date", (Json.lookupKey kvs "transactionDate").getD (Json.str "")),
    ("name", (Json.lookupKey kvs "name").getD (Json.str "")),
    ("share", (Json.lookupKey kvs "share").getD (Json.num 0)),
    ("change", (Json.lookupKey kvs "change").getD (Json.num 0)),
    ("filingDate", (Json.lookupKey kvs "filingDate").getD (Json.str "")),
    ("transactionCode", (Json.lookupKey kvs "transactionCode").getD (Json.str "")),
    ("transactionPrice", (Json.lookupKey kvs "transactionPrice").getD (Json.num 0))]

lemma projectRelease_obj (kvs : List (String × Json)) :
    projectRelease (Json.obj kvs) = .ok (releaseFields kvs) := rfl

lemma projectTransaction_obj (kvs : List (String × Json)) :
    projectTransaction (Json.obj kvs) = .ok (transactionFields kvs) := rfl

lemma mapM_projectRelease (xs : List (List (String × Json))) :
    (xs.map Json.obj).mapM projectRelease = .ok (xs.map releaseFields) := by
  induction xs with
  | nil => rfl
  | cons x xs ih =>
      rw [List.map_cons, List.mapM_cons, projectRelease_obj, ih]
      rfl

lemma mapM_projectTransaction (xs : List (List (String × Json))) :
    (xs.map Json.obj).mapM projectTransaction = .ok (xs.map transactionFields) := by
  induction xs with
  | nil => rfl
  | cons x xs ih =>
      rw [List.map_cons, List.mapM_cons, projectTransaction_obj, ih]
      rfl

lemma pure_eq_ok {α : Type} (a : α) : (pure a : Except String α) = Except.ok a := rfl

lemma error_bind {α β : Type} (msg : String) (f : α → Except String β) :
    ((Except.error msg : Except String α) >>= f) = Except.error msg := rfl

lemma ok_bind {α β : Type} (a : α) (f : α → Except String β) :
    ((Except.ok a : Except String α) >>= f) = f a := rfl

lemma raiseForStatusAndJson_ok (j : Json) :
    raiseForStatusAndJson (HttpResult.success 200 (some j)) = .ok j := rfl

lemma mapM_loop_projectRelease (xs : List (List (String × Json)))
    (acc : List Json) :
    List.mapM.loop projectRelease (xs.map Json.obj) acc
      = .ok (acc.reverse ++ xs.map releaseFields) := by
  induction xs generalizing acc with
  | nil => simp [List.mapM.loop, pure_eq_ok]
  | cons x l ih => simp [List.mapM.loop, projectRelease_obj, ih, ok_bind]

lemma mapM_loop_projectTransaction (xs : List (List (String × Json)))
    (acc : List Json) :
    List.mapM.loop projectTransaction (xs.map Json.obj) acc
      = .ok (acc.reverse ++ xs.map transactionFields) := by
  induction xs generalizing acc with
  | nil => simp [List.mapM.loop, pure_eq_ok]
  | cons x l ih => simp [List.mapM.loop, projectTransaction_obj, ih, ok_bind]

/-- C3: with the API token environment variable absent, the MCP server's
module initialization raises (the process does not start), while the
interactive server starts in degraded mode (warning shown, no raise) and
each of its five operations returns the explicit not-configured answer
and issues no network request. -/
theorem missing_token_semantics (symbol fd td mt : String) (lim : Int)
    (today : Nat) (provider : Request → HttpResult) :
    mcpStartup none = Except.error "FINNHUB_API_KEY environment variable is required"
    ∧ appStartup none = ("", true)
    ∧ app_get_press_releases "" symbol fd td today provider = (notConfigured.dumps, [])
    ∧ app_get_insider_transactions "" symbol fd td today provider = (notConfigured.dumps, [])
    ∧ app_get_basic_financials "" symbol mt provider = (notConfigured.dumps, [])
    ∧ app_get_company_profile "" symbol provider = (notConfigured.dumps, [])
    ∧ app_get_earnings_surprises "" symbol lim provider = (notConfigured.dumps, []) := by
  refine ⟨rfl, rfl, ?_, ?_, ?_, ?_, ?_⟩ <;> rfl

/-- C7: with both dates omitted, the press-release window is the 30 days
ending today and the insider window the 90 days ending today (on both
front ends); explicitly supplied dates are used unchanged. -/
theorem default_date_windows (ak sym fd td : String) (today : Nat)
    (provider : Request → HttpResult)
    (h30 : 30 ≤ today) (h90 : 90 ≤ today) (hfd : fd ≠ "") (htd : td ≠ "") :
    (resolveRange "" "" today 30 = (fmtDate (today - 30), fmtDate today)
      ∧ today - (today - 30) = 30)
    ∧ (resolveRange "" "" today 90 = (fmtDate (today - 90), fmtDate today)
      ∧ today - (today - 90) = 90)
    ∧ resolveRange fd td today 30 = (fd, td)
    ∧ resolveRange fd td today 90 = (fd, td)
    ∧ (mcp_get_press_releases ak sym none none today provider).2 =
        [⟨FINNHUB_BASE_URL ++ "/press-releases",
          [("token", ak), ("symbol", pyUpper sym),
            ("from", fmtDate (today - 30)), ("to", fmtDate today)], none⟩]
    ∧ (mcp_get_insider_transactions ak sym none none today provider).2 =
        [⟨FINNHUB_BASE_URL ++ "/stock/insider-transactions",
          [("token", ak), ("symbol", pyUpper sym),
            ("from", fmtDate (today - 90)), ("to", fmtDate today)], none⟩]
    ∧ (mcp_get_press_releases ak sym (some fd) (some td) today provider).2 =
        [⟨FINNHUB_BASE_URL ++ "/press-releases",
          [("token", ak), ("symbol", pyUpper sym), ("from", fd), ("to", td)], none⟩] := by
  refine ⟨⟨rfl, by omega⟩, ⟨rfl, by omega⟩, ?_, ?_, rfl, rfl, rfl⟩ <;>
    simp [resolveRange, hfd, htd]

/-- Witness for `default_date_windows` at day 20000 with explicit dates. -/
theorem default_date_windows_witness :
    ((30:Nat) ≤ 20000 ∧ (90:Nat) ≤ 20000
      ∧ "2024-01-02" ≠ "" ∧ "2024-03-04" ≠ "")
    ∧ resolveRange "" "" 20000 30 = (fmtDate (20000 - 30), fmtDate 20000)
    ∧ resolveRange "2024-01-02" "2024-03-04" 20000 30 = ("2024-01-02", "2024-03-04") :=
  ⟨⟨by decide, by decide, by decide, by decide⟩,
   (default_date_windows "k" "AAPL" "2024-01-02" "2024-03-04" 20000
      (fun _ => HttpResult.netError "x") (by decide) (by decide)
      (by decide) (by decide)).1.1,
   (default_date_windows "k" "AAPL" "2024-01-02" "2024-03-04" 20000
      (fun _ => HttpResult.netError "x") (by decide) (by decide)
      (by decide) (by decide)).2.2.1⟩

/-- C2: the category filter of `get_basic_financials` on a metrics
object with keys `peRatio`, `grossMargin`, `beta`, `roeTTM`: `valuation`
keeps exactly `peRatio`; `margin` exactly `grossMargin` and `roeTTM`;
`price` exactly `beta`; `all` or any unrecognized category keeps every
key; and in general a key is kept iff its lowercased name contains one of
the category's terms. -/
theorem financial_metric_filtering (sym : String) (v1 v2 v3 v4 : Json) :
    filterMetrics "valuation"
        [("peRatio", v1), ("grossMargin", v2), ("beta", v3), ("roeTTM", v4)]
      = [("peRatio", v1)]
    ∧ filterMetrics "margin"
        [("peRatio", v1), ("grossMargin", v2), ("beta", v3), ("roeTTM", v4)]
      = [("grossMargin", v2), ("roeTTM", v4)]
    ∧ filterMetrics "price"
        [("peRatio", v1), ("grossMargin", v2), ("beta", v3), ("roeTTM", v4)]
      = [("beta", v3)]
    ∧ filterMetrics "all"
        [("peRatio", v1), ("grossMargin", v2), ("beta", v3), ("roeTTM", v4)]
      = [("peRatio", v1), ("grossMargin", v2), ("beta", v3), ("roeTTM", v4)]
    ∧ (∀ (cat : String) (kvs : List (String × Json)),
        cat ≠ "price" → cat ≠ "valuation" → cat ≠ "margin" →
        filterMetrics cat kvs = kvs)
    ∧ (∀ (k : String) (v : Json) (kvs : List (String × Json)),
        (k, v) ∈ filterMetrics "price" kvs ↔
          (k, v) ∈ kvs ∧ (strContains (pyLower k) "price"
            ∨ strContains (pyLower k) "52week" ∨ strContains (pyLower k) "beta"))
    ∧ (∀ (k : String) (v : Json) (kvs : List (String × Json)),
        (k, v) ∈ filterMetrics "valuation" kvs ↔
          (k, v) ∈ kvs ∧ (strContains (pyLower k) "pe"
            ∨ strContains (pyLower k) "pb" ∨ strContains (pyLower k) "ps"
            ∨ strContains (pyLower k) "ev" ∨ strContains (pyLower k) "ratio"))
    ∧ (∀ (k : String) (v : Json) (kvs : List (String × Json)),
        (k, v) ∈ filterMetrics "margin" kvs ↔
          (k, v) ∈ kvs ∧ (strContains (pyLower k) "margin"
            ∨ strContains (pyLower k) "roe" ∨ strContains (pyLower k) "roa"
            ∨ strContains (pyLower k) "roic"))
    ∧ financialsBody sym "valuation" (.success 200 (some (Json.obj [("metric",
        Json.obj [("peRatio", v1), ("grossMargin", v2), ("beta", v3), ("roeTTM", v4)])])))
      = .ok (Json.obj [("symbol", Json.str sym),
          ("metric_type", Json.str "valuation"),
          ("metrics", Json.obj [("peRatio", v1)]),
          ("series", Json.obj [])]) := by
  refine ⟨rfl, rfl, rfl, rfl, ?_, ?_, ?_, ?_, rfl⟩
  · intro cat kvs h1 h2 h3
    simp [filterMetrics, h1, h2, h3]
  all_goals
    intro k v kvs
    simp [filterMetrics, keyMatches, List.mem_filter, or_assoc]

/-- Witness for `financial_metric_filtering` at concrete metric values,
instantiating the unrecognized-category conjunct at `all`. -/
theorem financial_metric_filtering_witness :
    ("all" ≠ "price" ∧ "all" ≠ "valuation" ∧ "all" ≠ "margin")
    ∧ filterMetrics "all" [("peRatio", Json.num 1)] = [("peRatio", Json.num 1)] :=
  ⟨⟨by decide, by decide, by decide⟩,
   (financial_metric_filtering "AAPL" (Json.num 1) (Json.num 2) (Json.num 3)
      (Json.num 4)).2.2.2.2.1 "all" [("peRatio", Json.num 1)]
      (by decide) (by decide) (by decide)⟩

/-- C5 counterexample: the MCP `get_press_releases` does not trim the
symbol — on input `"  aapl "` it resolves the symbol to `"  AAPL "`, so
both the answer text and the issued query differ from those for
`"AAPL"`. -/
theorem symbol_trim_counterexample :
    (mcp_get_press_releases "k" "  aapl " (some "f") (some "t") 0
        (fun _ => HttpResult.success 200 (some (Json.obj [])))).1
      = Except.ok "No press releases found for   AAPL  between f and t"
    ∧ (mcp_get_press_releases "k" "AAPL" (some "f") (some "t") 0
        (fun _ => HttpResult.success 200 (some (Json.obj [])))).1
      = Except.ok "No press releases found for AAPL between f and t"
    ∧ (mcp_get_press_releases "k" "  aapl " (some "f") (some "t") 0
        (fun _ => HttpResult.success 200 (some (Json.obj [])))).2
      ≠ (mcp_get_press_releases "k" "AAPL" (some "f") (some "t") 0
        (fun _ => HttpResult.success 200 (some (Json.obj [])))).2 :=
  ⟨rfl, rfl, by decide⟩

/-- C5 (amended): each interactive-server operation trims and uppercases
the symbol, so `"  aapl "` is treated identically to `"AAPL"` there; each
MCP operation only uppercases, so `"  aapl "` is treated identically to
`"  AAPL "` (untrimmed), not to `"AAPL"`. -/
theorem symbol_normalization (ak fd td mt : String) (lim : Int)
    (fdo tdo mo : Option String) (lo : Option Int)
    (today : Nat) (provider : Request → HttpResult) :
    app_get_press_releases ak "  aapl " fd td today provider
      = app_get_press_releases ak "AAPL" fd td today provider
    ∧ app_get_insider_transactions ak "  aapl " fd td today provider
      = app_get_insider_transactions ak "AAPL" fd td today provider
    ∧ app_get_basic_financials ak "  aapl " mt provider
      = app_get_basic_financials ak "AAPL" mt provider
    ∧ app_get_company_profile ak "  aapl " provider
      = app_get_company_profile ak "AAPL" provider
    ∧ app_get_earnings_surprises ak "  aapl " lim provider
      = app_get_earnings_surprises ak "AAPL" lim provider
    ∧ mcp_get_press_releases ak "  aapl " fdo tdo today provider
      = mcp_get_press_releases ak "  AAPL " fdo tdo today provider
    ∧ mcp_get_insider_transactions ak "  aapl " fdo tdo today provider
      = mcp_get_insider_transactions ak "  AAPL " fdo tdo today provider
    ∧ mcp_get_basic_financials ak "  aapl " mo provider
      = mcp_get_basic_financials ak "  AAPL " mo provider
    ∧ mcp_get_company_profile ak "  aapl " provider
      = mcp_get_company_profile ak "  AAPL " provider
    ∧ mcp_get_earnings_surprises ak "  aapl " lo provider
      = mcp_get_earnings_surprises ak "  AAPL " lo provider := by
  have h : appNormSymbol "  aapl " = appNormSymbol "AAPL" := by decide
  have h2 : pyUpper "  aapl " = pyUpper "  AAPL " := by decide
  refine ⟨?_, ?_, ?_, ?_, ?_, ?_, ?_, ?_, ?_, ?_⟩ <;>
    simp only [app_get_press_releases, app_press_core,
      app_get_insider_transactions, app_insider_core,
      app_get_basic_financials, app_financials_core,
      app_get_company_profile, app_profile_core,
      app_get_earnings_surprises, app_earnings_core,
      mcp_get_press_releases, mcp_get_insider_transactions,
      mcp_get_basic_financials, mcp_get_company_profile,
      mcp_get_earnings_surprises, h, h2]

/-- C8 counterexample: the MCP `get_press_releases` issues its one GET
with no timeout, not a 10-unit timeout. -/
theorem request_timeout_counterexample :
    (mcp_get_press_releases "k" "AAPL" (some "f") (some "t") 0
        (fun _ => HttpResult.netError "x")).2.map Request.timeout = [none]
    ∧ (none : Option Nat) ≠ some 10 :=
  ⟨rfl, by decide⟩

/-- C8 (amended): every GET issued by the interactive server's five
operations carries a 10-unit timeout; the MCP server's five operations
issue their GETs with no timeout at all. -/
theorem request_timeouts (ak sym fd td mt : String) (lim : Int)
    (fdo tdo mo : Option String) (lo : Option Int) (today : Nat)
    (provider : Request → HttpResult) :
    (∀ r ∈ (app_get_press_releases ak sym fd td today provider).2, r.timeout = some 10)
    ∧ (∀ r ∈ (app_get_insider_transactions ak sym fd td today provider).2, r.timeout = some 10)
    ∧ (∀ r ∈ (app_get_basic_financials ak sym mt provider).2, r.timeout = some 10)
    ∧ (∀ r ∈ (app_get_company_profile ak sym provider).2, r.timeout = some 10)
    ∧ (∀ r ∈ (app_get_earnings_surprises ak sym lim provider).2, r.timeout = some 10)
    ∧ (∀ r ∈ (mcp_get_press_releases ak sym fdo tdo today provider).2, r.timeout = none)
    ∧ (∀ r ∈ (mcp_get_insider_transactions ak sym fdo tdo today provider).2, r.timeout = none)
    ∧ (∀ r ∈ (mcp_get_basic_financials ak sym mo provider).2, r.timeout = none)
    ∧ (∀ r ∈ (mcp_get_company_profile ak sym provider).2, r.timeout = none)
    ∧ (∀ r ∈ (mcp_get_earnings_surprises ak sym lo provider).2, r.timeout = none) := by
  refine ⟨?_, ?_, ?_, ?_, ?_, ?_, ?_, ?_, ?_, ?_⟩ <;>
  · intro r hr
    simp only [app_get_press_releases, app_press_core,
      app_get_insider_transactions, app_insider_core,
      app_get_basic_financials, app_financials_core,
      app_get_company_profile, app_profile_core,
      app_get_earnings_surprises, app_earnings_core,
      mcp_get_press_releases, mcp_get_insider_transactions,
      mcp_get_basic_financials, mcp_get_company_profile,
      mcp_get_earnings_surprises] at hr
    repeat' split at hr
    all_goals simp_all

/-- Witness for `request_timeouts`: the one request the interactive
press-release operation issues for concrete inputs carries timeout 10. -/
theorem request_timeouts_witness :
    Request.timeout ⟨FINNHUB_BASE_URL ++ "/press-releases",
      [("token", "k"), ("symbol", "AAPL"), ("from", "f"), ("to", "t")],
      some 10⟩ = some 10 :=
  (request_timeouts "k" "AAPL" "f" "t" "all" 4 none none none none 0
      (fun _ => HttpResult.netError "x")).1 _ (by decide)

/-- C1 counterexample: the MCP `get_press_releases` has no catch — a
transport failure escapes the operation as an exception instead of being
rendered as an answer object with an `error` field. -/
theorem error_catching_counterexample :
    (mcp_get_press_releases "k" "AAPL" (some "f") (some "t") 0
        (fun _ => HttpResult.netError "Connection timed out")).1
      = Except.error "Connection timed out" := rfl

/-- C1 (amended): each interactive-server operation catches every
failure of the GET / status check / JSON decode / reshaping pipeline and
returns an answer object containing only an `error` field holding the
exception's message; the MCP server's operations have no such catch, so
the same failures escape the operation as exceptions to its caller (the
dispatcher). -/
theorem error_catching (ak sym fd td mt : String) (lim : Int)
    (fdo tdo mo : Option String) (lo : Option Int) (today : Nat)
    (r : HttpResult) (msg : String) (xs : List Json)
    (hk : ak ≠ "") (hs : appNormSymbol sym ≠ "")
    (hr : raiseForStatusAndJson r = .error msg) :
    (app_get_press_releases ak sym fd td today (fun _ => r)).1
      = (Json.obj [("error", Json.str msg)]).dumps
    ∧ (app_get_insider_transactions ak sym fd td today (fun _ => r)).1
      = (Json.obj [("error", Json.str msg)]).dumps
    ∧ (app_get_basic_financials ak sym mt (fun _ => r)).1
      = (Json.obj [("error", Json.str msg)]).dumps
    ∧ (app_get_company_profile ak sym (fun _ => r)).1
      = (Json.obj [("error", Json.str msg)]).dumps
    ∧ (app_get_earnings_surprises ak sym lim (fun _ => r)).1
      = (Json.obj [("error", Json.str msg)]).dumps
    ∧ (app_get_press_releases ak sym fd td today
        (fun _ => HttpResult.success 200 (some (Json.arr xs)))).1
      = (Json.obj [("error",
          Json.str "AttributeError: object has no attribute get")]).dumps
    ∧ (app_get_insider_transactions ak sym fd td today
        (fun _ => HttpResult.success 200 (some (Json.arr xs)))).1
      = (Json.obj [("error",
          Json.str "AttributeError: object has no attribute get")]).dumps
    ∧ (app_get_basic_financials ak sym mt
        (fun _ => HttpResult.success 200 (some (Json.arr xs)))).1
      = (Json.obj [("error",
          Json.str "AttributeError: object has no attribute get")]).dumps
    ∧ (mcp_get_press_releases ak sym fdo tdo today (fun _ => r)).1
      = Except.error msg
    ∧ (mcp_get_insider_transactions ak sym fdo tdo today (fun _ => r)).1
      = Except.error msg
    ∧ (mcp_get_basic_financials ak sym mo (fun _ => r)).1
      = Except.error msg
    ∧ (mcp_get_company_profile ak sym (fun _ => r)).1
      = Except.error msg
    ∧ (mcp_get_earnings_surprises ak sym lo (fun _ => r)).1
      = Except.error msg := by
  refine ⟨?_, ?_, ?_, ?_, ?_, ?_, ?_, ?_, ?_, ?_, ?_, ?_, ?_⟩ <;>
    simp [app_get_press_releases, app_press_core,
      app_get_insider_transactions, app_insider_core,
      app_get_basic_financials, app_financials_core,
      app_get_company_profile, app_profile_core,
      app_get_earnings_surprises, app_earnings_core,
      mcp_get_press_releases, mcp_get_insider_transactions,
      mcp_get_basic_financials, mcp_get_company_profile,
      mcp_get_earnings_surprises,
      pressBody, insiderBody, financialsBody, profileBody, earningsBody,
      mcpPressText, mcpInsiderText, mcpFinancialsText, mcpProfileText,
      mcpEarningsText,
      raiseForStatusAndJson_ok, error_bind, ok_bind, pyGet, pyTry,
      hk, hs, hr]

/-- Witness for `error_catching` at a simulated network timeout. -/
theorem error_catching_witness :
    ("k" ≠ "" ∧ appNormSymbol "AAPL" ≠ ""
      ∧ raiseForStatusAndJson (HttpResult.netError "boom") = .error "boom")
    ∧ (app_get_press_releases "k" "AAPL" "f" "t" 0
        (fun _ => HttpResult.netError "boom")).1
      = (Json.obj [("error", Json.str "boom")]).dumps
    ∧ (mcp_get_press_releases "k" "AAPL" (some "f") (some "t") 0
        (fun _ => HttpResult.netError "boom")).1 = Except.error "boom" :=
  ⟨⟨by decide, by decide, rfl⟩,
   (error_catching "k" "AAPL" "f" "t" "all" 4 (some "f") (some "t") none none 0
      (HttpResult.netError "boom") "boom" [] (by decide) (by decide) rfl).1,
   (error_catching "k" "AAPL" "f" "t" "all" 4 (some "f") (some "t") none none 0
      (HttpResult.netError "boom") "boom" [] (by decide) (by decide)
      rfl).2.2.2.2.2.2.2.2.1⟩

/-- C6: when the provider response's expected data field is empty or
absent (falsy `majorDevelopment`, `data` or `metric`; falsy payload for
profile/earnings), each operation answers with the documented
human-readable no-results message carrying the symbol (and the date
range where applicable) — not an error object and not an empty truncated
list. -/
theorem empty_result_messages (sym fd td mt : String)
    (kvs kvs2 kvs3 : List (String × Json)) (j j2 : Json)
    (hpr : optTruthy (Json.lookupKey kvs "majorDevelopment") = false)
    (hin : optTruthy (Json.lookupKey kvs2 "data") = false)
    (hfm : optTruthy (Json.lookupKey kvs3 "metric") = false)
    (hp : j.truthy = false) (he : j2.truthy = false) :
    pressBody sym fd td (.success 200 (some (Json.obj kvs)))
      = .ok (Json.obj [("symbol", Json.str sym),
          ("message", Json.str ("No press releases found for " ++ sym ++
            " between " ++ fd ++ " and " ++ td))])
    ∧ insiderBody sym fd td (.success 200 (some (Json.obj kvs2)))
      = .ok (Json.obj [("symbol", Json.str sym),
          ("message", Json.str ("No insider transactions found for " ++ sym ++
            " between " ++ fd ++ " and " ++ td))])
    ∧ financialsBody sym mt (.success 200 (some (Json.obj kvs3)))
      = .ok (Json.obj [("symbol", Json.str sym),
          ("message", Json.str ("No financial metrics found for " ++ sym))])
    ∧ profileBody sym (.success 200 (some j))
      = .ok (Json.obj [("symbol", Json.str sym),
          ("message", Json.str ("No company profile found for " ++ sym))])
    ∧ earningsBody sym (.success 200 (some j2))
      = .ok (Json.obj [("symbol", Json.str sym),
          ("message", Json.str ("No earnings data found for " ++ sym))])
    ∧ mcpPressText sym fd td (.success 200 (some (Json.obj kvs)))
      = .ok ("No press releases found for " ++ sym ++ " between " ++ fd ++
          " and " ++ td) := by
  refine ⟨?_, ?_, ?_, ?_, ?_, ?_⟩ <;>
    simp [pressBody, insiderBody, financialsBody, profileBody, earningsBody,
      mcpPressText, raiseForStatusAndJson_ok, ok_bind, pyGet, pure_eq_ok,
      hpr, hin, hfm, hp, he]

/-- Witness for `empty_result_messages` at an empty provider object. -/
theorem empty_result_messages_witness :
    (optTruthy (Json.lookupKey [] "majorDevelopment") = false
      ∧ (Json.obj []).truthy = false)
    ∧ pressBody "AAPL" "f" "t" (.success 200 (some (Json.obj [])))
      = .ok (Json.obj [("symbol", Json.str "AAPL"),
          ("message", Json.str ("No press releases found for " ++ "AAPL" ++
            " between " ++ "f" ++ " and " ++ "t"))])
    ∧ profileBody "AAPL" (.success 200 (some (Json.obj [])))
      = .ok (Json.obj [("symbol", Json.str "AAPL"),
          ("message", Json.str ("No company profile found for " ++ "AAPL"))]) :=
  ⟨⟨rfl, rfl⟩,
   (empty_result_messages "AAPL" "f" "t" "all" [] [] [] (Json.obj [])
      (Json.obj []) rfl rfl rfl rfl rfl).1,
   (empty_result_messages "AAPL" "f" "t" "all" [] [] [] (Json.obj [])
      (Json.obj []) rfl rfl rfl rfl rfl).2.2.2.1⟩

lemma map_ok {α β : Type} (f : α → β) (a : α) :
    (f <$> (Except.ok a : Except String α)) = Except.ok (f a) := rfl

/-- C4: with a nonempty `majorDevelopment` list of record objects, the
press-release answer holds the projections of exactly the first 10
entries in provider order (the first 10 when the list is longer, the
whole list in order when at or under the cap); same for insider
transactions with a cap of 20 — on both front ends. -/
theorem list_truncation (sym fd td : String)
    (xs ys : List (List (String × Json))) (hxs : xs ≠ []) (hys : ys ≠ []) :
    pressBody sym fd td (.success 200 (some (Json.obj
        [("majorDevelopment", Json.arr (xs.map Json.obj))])))
      = .ok (Json.obj [("symbol", Json.str sym),
          ("date_range", Json.str (fd ++ " to " ++ td)),
          ("press_releases", Json.arr ((xs.take 10).map releaseFields))])
    ∧ insiderBody sym fd td (.success 200 (some (Json.obj
        [("data", Json.arr (ys.map Json.obj))])))
      = .ok (Json.obj [("symbol", Json.str sym),
          ("date_range", Json.str (fd ++ " to " ++ td)),
          ("insider_transactions", Json.arr ((ys.take 20).map transactionFields))])
    ∧ mcpPressText sym fd td (.success 200 (some (Json.obj
        [("majorDevelopment", Json.arr (xs.map Json.obj))])))
      = .ok (Json.dumps (Json.obj [("symbol", Json.str sym),
          ("date_range", Json.str (fd ++ " to " ++ td)),
          ("press_releases", Json.arr ((xs.take 10).map releaseFields))]))
    ∧ mcpInsiderText sym fd td (.success 200 (some (Json.obj
        [("data", Json.arr (ys.map Json.obj))])))
      = .ok (Json.dumps (Json.obj [("symbol", Json.str sym),
          ("date_range", Json.str (fd ++ " to " ++ td)),
          ("insider_transactions", Json.arr ((ys.take 20).map transactionFields))]))
    ∧ (10 < xs.length → ((xs.take 10).map releaseFields).length = 10)
    ∧ (∀ i, i < 10 →
        ((xs.take 10).map releaseFields)[i]? = (xs.map releaseFields)[i]?)
    ∧ (xs.length ≤ 10 → (xs.take 10).map releaseFields = xs.map releaseFields)
    ∧ (20 < ys.length → ((ys.take 20).map transactionFields).length = 20)
    ∧ (∀ i, i < 20 →
        ((ys.take 20).map transactionFields)[i]? = (ys.map transactionFields)[i]?)
    ∧ (ys.length ≤ 20 → (ys.take 20).map transactionFields = ys.map transactionFields) := by
  have hxe : (xs.map Json.obj).isEmpty = false := by
    cases xs with
    | nil => exact absurd rfl hxs
    | cons a l => rfl
  have hye : (ys.map Json.obj).isEmpty = false := by
    cases ys with
    | nil => exact absurd rfl hys
    | cons a l => rfl
  refine ⟨?_, ?_, ?_, ?_, ?_, ?_, ?_, ?_, ?_, ?_⟩
  · simp [pressBody, raiseForStatusAndJson_ok, ok_bind, pyGet, pySliceList,
      Json.lookupKey, optTruthy, Json.truthy, hxe, pure_eq_ok, map_ok,
      ← List.map_take, mapM_projectRelease, mapM_loop_projectRelease]
  · simp [insiderBody, raiseForStatusAndJson_ok, ok_bind, pyGet, pySliceList,
      Json.lookupKey, optTruthy, Json.truthy, hye, pure_eq_ok, map_ok,
      ← List.map_take, mapM_projectTransaction, mapM_loop_projectTransaction]
  · simp [mcpPressText, raiseForStatusAndJson_ok, ok_bind, pyGet, pySliceList,
      Json.lookupKey, optTruthy, Json.truthy, hxe, pure_eq_ok, map_ok,
      ← List.map_take, mapM_projectRelease, mapM_loop_projectRelease]
  · simp [mcpInsiderText, raiseForStatusAndJson_ok, ok_bind, pyGet, pySliceList,
      Json.lookupKey, optTruthy, Json.truthy, hye, pure_eq_ok, map_ok,
      ← List.map_take, mapM_projectTransaction, mapM_loop_projectTransaction]
  · intro h
    simp [List.length_map, List.length_take]
    omega
  · intro i hi
    rw [List.map_take, List.getElem?_take_of_lt hi]
  · intro h
    simp [List.take_of_length_le h]
  · intro h
    simp [List.length_map, List.length_take]
    omega
  · intro i hi
    rw [List.map_take, List.getElem?_take_of_lt hi]
  · intro h
    simp [List.take_of_length_le h]

/-- Witness for `list_truncation`: a 12-entry provider list is cut to
exactly 10 records. -/
theorem list_truncation_witness :
    ([[], [], [], [], [], [], [], [], [], [], [], []] :
        List (List (String × Json))) ≠ []
    ∧ ((([[], [], [], [], [], [], [], [], [], [], [], []] :
          List (List (String × Json))).take 10).map releaseFields).length = 10 :=
  ⟨List.cons_ne_nil _ _,
   (list_truncation "AAPL" "f" "t"
      [[], [], [], [], [], [], [], [], [], [], [], []] [[], []]
      (List.cons_ne_nil _ _) (List.cons_ne_nil _ _)).2.2.2.2.1 (by decide)⟩

/-- C9: with explicit dates, each operation's answer — including its
serialized text and the requests it issues — is a function purely of the
credential, the query parameters and the provider's responses: two
invocations at different call times against providers that answer every
request identically produce identical (byte-identical once serialized)
results; no state is carried across calls. -/
theorem answer_determinism (ak sym fd td mt : String) (lim : Int)
    (t1 t2 : Nat) (p1 p2 : Request → HttpResult)
    (hfd : fd ≠ "") (htd : td ≠ "") (hp : ∀ q, p1 q = p2 q) :
    app_get_press_releases ak sym fd td t1 p1
      = app_get_press_releases ak sym fd td t2 p2
    ∧ app_get_insider_transactions ak sym fd td t1 p1
      = app_get_insider_transactions ak sym fd td t2 p2
    ∧ app_get_basic_financials ak sym mt p1 = app_get_basic_financials ak sym mt p2
    ∧ app_get_company_profile ak sym p1 = app_get_company_profile ak sym p2
    ∧ app_get_earnings_surprises ak sym lim p1
      = app_get_earnings_surprises ak sym lim p2
    ∧ mcp_get_press_releases ak sym (some fd) (some td) t1 p1
      = mcp_get_press_releases ak sym (some fd) (some td) t2 p2
    ∧ mcp_get_insider_transactions ak sym (some fd) (some td) t1 p1
      = mcp_get_insider_transactions ak sym (some fd) (some td) t2 p2
    ∧ mcp_get_basic_financials ak sym (some mt) p1
      = mcp_get_basic_financials ak sym (some mt) p2
    ∧ mcp_get_company_profile ak sym p1 = mcp_get_company_profile ak sym p2
    ∧ mcp_get_earnings_surprises ak sym (some lim) p1
      = mcp_get_earnings_surprises ak sym (some lim) p2 := by
  have hpp : p1 = p2 := funext hp
  subst hpp
  have h1 : ∀ t d, resolveRange fd td t d = (fd, td) := fun t d => by
    simp [resolveRange, hfd, htd]
  refine ⟨?_, ?_, rfl, rfl, rfl, ?_, ?_, rfl, rfl, rfl⟩ <;>
    simp only [app_get_press_releases, app_press_core,
      app_get_insider_transactions, app_insider_core,
      mcp_get_press_releases, mcp_get_insider_transactions, h1,
      Option.getD_some]

/-- Witness for `answer_determinism` at call times 0 and 999. -/
theorem answer_determinism_witness :
    ("f" ≠ "" ∧ "t" ≠ "")
    ∧ app_get_press_releases "k" "AAPL" "f" "t" 0
        (fun _ => HttpResult.netError "x")
      = app_get_press_releases "k" "AAPL" "f" "t" 999
        (fun _ => HttpResult.netError "x") :=
  ⟨⟨by decide, by decide⟩,
   (answer_determinism "k" "AAPL" "f" "t" "all" 4 0 999
      (fun _ => HttpResult.netError "x") (fun _ => HttpResult.netError "x")
      (by decide) (by decide) (fun q => rfl)).1⟩

/-- C10 counterexample: on a provider response with no `metric` field
the answer is the no-metrics message object, which has no `series`
field — so the answer does not always contain a `series` field. -/
theorem series_field_counterexample :
    (app_financials_core "k" "AAPL" "price"
        (fun _ => HttpResult.success 200 (some (Json.obj [])))).1
      = Json.obj [("symbol", Json.str "AAPL"),
          ("message", Json.str "No financial metrics found for AAPL")]
    ∧ Json.lookupKey [("symbol", Json.str "AAPL"),
        ("message", Json.str "No financial metrics found for AAPL")] "series"
      = none :=
  ⟨rfl, rfl⟩

/-- C10 (amended): for every provider response whose `metric` field is a
nonempty object and every requested category, the answer carries a
`series` field equal to the response's `series` value (an empty object
when absent) — the category filter touches only the `metrics` field;
when the `metric` field is empty or absent, the answer is instead the
no-metrics message, which has no `series` field. -/
theorem series_field_frame (sym mt : String) (mkvs kvs : List (String × Json))
    (hm : Json.lookupKey kvs "metric" = some (Json.obj mkvs)) (hne : mkvs ≠ []) :
    financialsBody sym mt (.success 200 (some (Json.obj kvs)))
      = .ok (Json.obj [("symbol", Json.str sym),
          ("metric_type", Json.str mt),
          ("metrics", Json.obj (filterMetrics mt mkvs)),
          ("series", (Json.lookupKey kvs "series").getD (Json.obj []))])
    ∧ mcpFinancialsText sym mt (.success 200 (some (Json.obj kvs)))
      = .ok (Json.dumps (Json.obj [("symbol", Json.str sym),
          ("metric_type", Json.str mt),
          ("metrics", Json.obj (filterMetrics mt mkvs)),
          ("series", (Json.lookupKey kvs "series").getD (Json.obj []))]))
    ∧ financialsBody sym mt (.success 200 (some (Json.obj [])))
      = .ok (Json.obj [("symbol", Json.str sym),
          ("message", Json.str ("No financial metrics found for " ++ sym))]) := by
  have he : mkvs.isEmpty = false := by
    cases mkvs with
    | nil => exact absurd rfl hne
    | cons a l => rfl
  refine ⟨?_, ?_, rfl⟩ <;>
    simp [financialsBody, mcpFinancialsText, raiseForStatusAndJson_ok, ok_bind,
      pyGet, pyItems, pyGetD, hm, optTruthy, Json.truthy, he, pure_eq_ok, map_ok]

/-- Witness for `series_field_frame` at a one-key metric object. -/
theorem series_field_frame_witness :
    (Json.lookupKey [("metric", Json.obj [("beta", Json.num 1)])] "metric"
        = some (Json.obj [("beta", Json.num 1)])
      ∧ ([("beta", Json.num 1)] : List (String × Json)) ≠ [])
    ∧ financialsBody "AAPL" "price" (.success 200 (some (Json.obj
        [("metric", Json.obj [("beta", Json.num 1)])])))
      = .ok (Json.obj [("symbol", Json.str "AAPL"),
          ("metric_type", Json.str "price"),
          ("metrics", Json.obj (filterMetrics "price" [("beta", Json.num 1)])),
          ("series", (Json.lookupKey [("metric", Json.obj [("beta", Json.num 1)])]
            "series").getD (Json.obj []))]) :=
  ⟨⟨rfl, List.cons_ne_nil _ _⟩,
   (series_field_frame "AAPL" "price" [("beta", Json.num 1)]
      [("metric", Json.obj [("beta", Json.num 1)])] rfl
      (List.cons_ne_nil _ _)).1⟩
